import Mathlib

/-
Verification of the Hong Kong weather MCP server (src/weather.py) against its
natural-language specification.

The whole program is a pipeline: one HTTP request function
(`make_hko_weather_request`), one per-report-type formatter
(`formatting_weather` dispatching to five renderers), and one entry tool
(`get_weather`) that validates its two string inputs.

Shallow embedding choices:
  * JSON documents are modelled by the inductive `Json` below; Python `dict`s
    become association lists in insertion order (CPython dicts preserve
    insertion order), JSON numbers are modelled as integers (every numeric
    literal exercised by the specification's claims is an integer).
  * Each Python primitive used by the source (`d.get(k, dflt)`, `d[k]`,
    `l[0]`, `len`, `k in d`, iteration, `sep.join`) becomes a total Lean
    function returning `Except String α`; a Python exception (KeyError,
    TypeError, IndexError, UnboundLocalError) becomes `.error msg`.
  * The formatter and its renderers are embedded in a state-threading style:
    every function takes the current document as an explicit state and returns
    it alongside its `Except` result.  The primitives are reads, so each is
    lifted with `liftSt`; that the composed renderers leave the document
    unchanged is then proved, not assumed.
  * The Fetcher's network interaction is abstracted by `HttpOutcome` (the
    upstream call either yields a 2xx body that parses as JSON, raises
    `HTTPStatusError` via `raise_for_status`, raises a transport
    `RequestError`, or raises some other exception); `get_weather` is
    parameterised by the network and additionally returns the list of URLs it
    requested, so "performs no network call" is the statement that this trace
    is empty.
-/

namespace HKWeather

/-- A JSON value, as produced by `response.json()` in the source.  Objects are
association lists in insertion order; numbers are modelled as integers. -/
inductive Json where
  | null
  | bool (b : Bool)
  | num (n : Int)
  | str (s : String)
  | arr (elems : List Json)
  | obj (fields : List (String × Json))

mutual

/-- Structural equality test on JSON values. -/
def Json.beq : Json → Json → Bool
  | .null, .null => true
  | .bool a, .bool b => a == b
  | .num a, .num b => a == b
  | .str a, .str b => a == b
  | .arr a, .arr b => Json.beqList a b
  | .obj a, .obj b => Json.beqFields a b
  | _, _ => false

/-- Equality on JSON arrays. -/
def Json.beqList : List Json → List Json → Bool
  | [], [] => true
  | a :: as, b :: bs => Json.beq a b && Json.beqList as bs
  | _, _ => false

/-- Equality on JSON object field lists. -/
def Json.beqFields : List (String × Json) → List (String × Json) → Bool
  | [], [] => true
  | (k, v) :: as, (k2, v2) :: bs => k == k2 && Json.beq v v2 && Json.beqFields as bs
  | _, _ => false

end

instance : BEq Json := ⟨Json.beq⟩

/-- First value bound to `key` in an object's field list (Python dict lookup;
CPython dicts cannot hold duplicate keys, so taking the first match is exact). -/
def getKey : List (String × Json) → String → Option Json
  | [], _ => none
  | (k, v) :: rest, key => if k == key then some v else getKey rest key

/-- Python truthiness of a JSON value (`if not data.get('details')`, ...):
`None`, `False`, `0`, `""`, `[]` and `\x7b\x7d` are falsy. -/
def truthy : Json → Bool
  | .null => false
  | .bool b => b
  | .num n => n != 0
  | .str s => !s.isEmpty
  | .arr l => !l.isEmpty
  | .obj l => !l.isEmpty

mutual

/-- Python `repr` of a JSON value (used by `str` on non-string values inside
f-strings only through containers; scalars use their own `str`). -/
def pyRepr : Json → String
  | .null => "None"
  | .bool b => if b then "True" else "False"
  | .num n => toString n
  | .str s => "\x27" ++ s ++ "\x27"
  | .arr l => "[" ++ String.intercalate ", " (pyReprList l) ++ "]"
  | .obj l => "\x7b" ++ String.intercalate ", " (pyReprFields l) ++ "\x7d"

/-- `pyRepr` mapped over an array's elements. -/
def pyReprList : List Json → List String
  | [] => []
  | a :: as => pyRepr a :: pyReprList as

/-- `pyRepr` mapped over an object's fields. -/
def pyReprFields : List (String × Json) → List String
  | [] => []
  | (k, v) :: rest => ("\x27" ++ k ++ "\x27: " ++ pyRepr v) :: pyReprFields rest

end

/-- Python `str()` of a JSON value, as interpolated by an f-string:
strings are inserted verbatim, `None`/`True`/`False`/numbers by their
Python spelling, containers by their `repr`. -/
def toPyStr : Json → String
  | .str s => s
  | j => pyRepr j

/-- Python `d.get(key, default)`: requires a dict (else `AttributeError`). -/
def pyGet : Json → String → Json → Except String Json
  | .obj fields, k, dflt => .ok ((getKey fields k).getD dflt)
  | _, _, _ => .error "AttributeError: object has no attribute get"

/-- Python `d[key]` with a string key: on a dict a lookup that raises
`KeyError` when absent; on a string or list a `TypeError`. -/
def pySubscript : Json → String → Except String Json
  | .obj fields, k =>
    match getKey fields k with
    | some v => .ok v
    | none => .error ("KeyError: " ++ k)
  | .str _, _ => .error "TypeError: string indices must be integers"
  | .arr _, _ => .error "TypeError: list indices must be integers"
  | _, _ => .error "TypeError: object is not subscriptable"

/-- Python `l[i]` with a non-negative integer index. -/
def pyIndex : Json → Nat → Except String Json
  | .arr l, i =>
    match l.get? i with
    | some v => .ok v
    | none => .error "IndexError: list index out of range"
  | .str s, i =>
    match s.toList.get? i with
    | some c => .ok (.str (String.mk [c]))
    | none => .error "IndexError: string index out of range"
  | _, _ => .error "TypeError: object is not subscriptable"

/-- Python `len`. -/
def pyLen : Json → Except String Nat
  | .str s => .ok s.length
  | .arr l => .ok l.length
  | .obj l => .ok l.length
  | _ => .error "TypeError: object has no len()"

/-- Whether `pat` occurs as a substring of `s` (Python `pat in s`). -/
def strContainsSub (s pat : String) : Bool :=
  pat.isEmpty || (s.splitOn pat).length != 1

/-- Python `key in d` for a string `key`. -/
def pyContains : Json → String → Except String Bool
  | .obj fields, k => .ok ((getKey fields k).isSome)
  | .arr l, k => .ok (l.contains (.str k))
  | .str s, k => .ok (strContainsSub s k)
  | _, _ => .error "TypeError: argument is not iterable"

/-- Python iteration `for x in v`: lists yield elements, strings yield
one-character strings, dicts yield their keys. -/
def pyIter : Json → Except String (List Json)
  | .arr l => .ok l
  | .str s => .ok (s.toList.map (fun c => .str (String.mk [c])))
  | .obj l => .ok (l.map (fun kv => Json.str kv.1))
  | _ => .error "TypeError: object is not iterable"

/-- Python `d.items()`: requires a dict. -/
def pyItems : Json → Except String (List (String × Json))
  | .obj fields => .ok fields
  | _ => .error "AttributeError: object has no attribute items"

/-- `sep.join` requires every element to be a `str`. -/
def pyStrOf : Json → Except String String
  | .str s => .ok s
  | _ => .error "TypeError: sequence item is not str"

/-- Error-propagating map over a list, mirroring a Python `for` loop that can
raise at any element. -/
def mapME {α β : Type} (f : α → Except String β) : List α → Except String (List β)
  | [] => .ok []
  | a :: as =>
    match f a with
    | .error e => .error e
    | .ok b =>
      match mapME f as with
      | .error e => .error e
      | .ok bs => .ok (b :: bs)

/-- Python `sep.join(items)` over JSON values. -/
def pyJoin (sep : String) (items : List Json) : Except String String :=
  match mapME pyStrOf items with
  | .error e => .error e
  | .ok ss => .ok (String.intercalate sep ss)

/-- Whether an `Except` result is a Python exception. -/
def isErr {α : Type} : Except String α → Bool
  | .error _ => true
  | .ok _ => false

/-
State-threading layer.  The state is the JSON document the formatter was
handed; every step returns its `Except` result together with the (possibly
updated) document, so that "the call never writes to its input" is a theorem
about the composition rather than an assumption.  The Python primitives above
(`get`, `[]`, `len`, `in`, iteration) are reads — none of them writes to the
dict they are applied to — so each atomic step is `liftSt` of its pure result.
-/

/-- Lift the result of a read-only primitive into the state-threaded form. -/
def liftSt {α : Type} (e : Except String α) (d : Json) : Except String α × Json :=
  (e, d)

/-- Sequencing with Python exception propagation: an exception aborts the rest
of the function body, returning the document in whatever state it was in. -/
def bindSt {α β : Type} : Except String α × Json → (α → Json → Except String β × Json) → Except String β × Json
  | (.error e, d), _ => (.error e, d)
  | (.ok a, d), f => f a d

/-- A Python `for` loop accumulating one value per element, threaded through
the document state; an exception at any element aborts the loop. -/
def mapMESt {α β : Type} (f : α → Json → Except String β × Json) : List α → Json → Except String (List β) × Json
  | [], d => (.ok [], d)
  | a :: as, d =>
    bindSt (f a d) fun b d =>
    bindSt (mapMESt f as d) fun bs d =>
    (.ok (b :: bs), d)

/-- The 12-entry warning-code table of `format_warnings`. -/
def warning_code_dict : List (String × String) :=
  [("WFIRE", "Fire Danger Warning"),
   ("WFROST", "Frost Warning"),
   ("WHOT", "Hot Weather Warning"),
   ("WCOLD", "Cold Weather Warning"),
   ("WMSGNL", "Strong Monsoon Signal"),
   ("WTCPRE8", "Pre-no.8 Special Announcement"),
   ("WRAIN", "Rainstorm Warning Signal"),
   ("WFNTSA", "Special Announcement on Flooding in the northern New Territories"),
   ("WL", "Landslip Warning"),
   ("WTCSGNL", "Tropical Cyclone Warning Signal"),
   ("WTMW", "Tsunami Warning"),
   ("WTS", "Thunderstorm Warning")]

/-- `warning_code_dict[warning['warningStatementCode']]`: a Python dict
subscript, raising `KeyError` for any key outside the 12 entries (and for a
non-string key, which no entry equals). -/
def warningCodeSubscript : Json → Except String String
  | .str s =>
    match warning_code_dict.lookup s with
    | some name => .ok name
    | none => .error ("KeyError: " ++ s)
  | _ => .error "KeyError: unhashable or unknown warning code"

/-- Loop body of `format_warnings` (src/weather.py lines 54-60): one warning
detail record rendered as `code(subtype) - time: contents`. -/
def format_warnings_detail_st (warning : Json) (d : Json) : Except String String × Json :=
  bindSt (liftSt (pySubscript warning "warningStatementCode") d) fun codeJ d =>
  bindSt (liftSt (warningCodeSubscript codeJ) d) fun code d =>
  bindSt (liftSt (pyGet warning "subtype" Json.null) d) fun subJ d =>
  bindSt (if truthy subJ then
            bindSt (liftSt (pySubscript warning "subtype") d) fun sv d =>
              (.ok (" (" ++ toPyStr sv ++ ")"), d)
          else (.ok "", d)) fun subtype d =>
  bindSt (liftSt (pySubscript warning "updateTime") d) fun timeJ d =>
  bindSt (liftSt (pySubscript warning "contents") d) fun contentsJ d =>
  bindSt (liftSt (pyIter contentsJ) d) fun contentItems d =>
  bindSt (liftSt (pyJoin " " contentItems) d) fun content d =>
  (.ok (code ++ subtype ++ " - " ++ toPyStr timeJ ++ ": " ++ content), d)

/-- `format_warnings` (src/weather.py lines 35-62), the `warningInfo`
renderer, threaded through the document state. -/
def format_warnings_st (d0 : Json) : Except String String × Json :=
  bindSt (liftSt (pyGet d0 "details" Json.null) d0) fun details d =>
  if truthy details then
    bindSt (liftSt (pySubscript d "details") d) fun detailsList d =>
    bindSt (liftSt (pyIter detailsList) d) fun items d =>
    bindSt (mapMESt format_warnings_detail_st items d) fun warnings d =>
    (.ok (String.intercalate "\n\n" warnings), d)
  else
    (.ok "No active warnings", d)

/-- Loop body of `format_warnings_summary` (src/weather.py lines 69-73). -/
def format_warnings_summary_item_st (kv : String × Json) (d : Json) : Except String String × Json :=
  bindSt (liftSt (pyGet kv.2 "name" (Json.str "Unknown")) d) fun nameJ d =>
  bindSt (liftSt (pyGet kv.2 "actionCode" (Json.str "Unknown")) d) fun actionJ d =>
  bindSt (liftSt (pyGet kv.2 "issueTime" (Json.str "Unknown")) d) fun timeJ d =>
  (.ok (toPyStr nameJ ++ " (" ++ kv.1 ++ ") - Action: " ++ toPyStr actionJ ++ ", Issued at: " ++ toPyStr timeJ), d)

/-- `format_warnings_summary` (src/weather.py lines 64-74), the `warnsum`
renderer, threaded through the document state. -/
def format_warnings_summary_st (d0 : Json) : Except String String × Json :=
  bindSt (liftSt (pyItems d0) d0) fun items d =>
  if items.length == 0 then
    (.ok "No warning issued.", d)
  else
    bindSt (mapMESt format_warnings_summary_item_st items d) fun final_warning_list d =>
    (.ok (String.intercalate "\n" final_warning_list), d)

/-- Loop body of `extract_temperature_data` (src/weather.py lines 81-82). -/
def temperature_reading_st (temp : Json) (d : Json) : Except String String × Json :=
  bindSt (liftSt (pySubscript temp "place") d) fun p d =>
  bindSt (liftSt (pySubscript temp "value") d) fun v d =>
  bindSt (liftSt (pySubscript temp "unit") d) fun u d =>
  (.ok (toPyStr p ++ ": " ++ toPyStr v ++ "°" ++ toPyStr u), d)

/-- `extract_temperature_data` (src/weather.py lines 76-84).  When the
`temperature` key is absent the accumulator `temp` of the source is never
assigned and the trailing `return temp` raises `UnboundLocalError`. -/
def extract_temperature_data_st (d0 : Json) : Except String String × Json :=
  bindSt (liftSt (pyContains d0 "temperature") d0) fun c d =>
  if c then
    bindSt (liftSt (pySubscript d "temperature") d) fun tempObj d =>
    bindSt (liftSt (pySubscript tempObj "data") d) fun temperatures d =>
    bindSt (liftSt (pySubscript d "temperature") d) fun tempObj2 d =>
    bindSt (liftSt (pySubscript tempObj2 "recordTime") d) fun recordTime d =>
    bindSt (liftSt (pyIter temperatures) d) fun temps d =>
    bindSt (mapMESt temperature_reading_st temps d) fun location_temp d =>
    (.ok ("Temperature readings (recorded at " ++ toPyStr recordTime ++ "):" ++ String.intercalate "\n" location_temp), d)
  else
    (.error "UnboundLocalError: local variable temp referenced before assignment", d)

/-- Loop body of `extract_rainfall_data` (src/weather.py lines 91-93): the
`maintenance` flag is computed first, from `rain.get('main')`. -/
def rainfall_reading_st (rain : Json) (d : Json) : Except String String × Json :=
  bindSt (liftSt (pyGet rain "main" Json.null) d) fun m d =>
  bindSt (liftSt (pySubscript rain "place") d) fun p d =>
  bindSt (liftSt (pySubscript rain "max") d) fun mx d =>
  bindSt (liftSt (pySubscript rain "unit") d) fun u d =>
  (.ok (toPyStr p ++ ": " ++ toPyStr mx ++ toPyStr u ++ " maintenance:" ++
        (if m == Json.str "TRUE" then " Under maintenance" else "False")), d)

/-- `extract_rainfall_data` (src/weather.py lines 86-94).  The `return` sits
outside the `if`, so a document without `rainfall` raises `UnboundLocalError`
on `rain_location`. -/
def extract_rainfall_data_st (d0 : Json) : Except String String × Json :=
  bindSt (liftSt (pyContains d0 "rainfall") d0) fun c d =>
  if c then
    bindSt (liftSt (pySubscript d "rainfall") d) fun rainfall_info d =>
    bindSt (liftSt (pySubscript rainfall_info "data") d) fun rainfall_data d =>
    bindSt (liftSt (pyIter rainfall_data) d) fun rains d =>
    bindSt (mapMESt rainfall_reading_st rains d) fun rain_location d =>
    (.ok ("Rainfall data:\n " ++ String.join rain_location), d)
  else
    (.error "UnboundLocalError: local variable rain_location referenced before assignment", d)

/-- `extract_humidity_data` (src/weather.py lines 96-102): Python's `or`
short-circuits, so the second test only runs when `humidity` is present. -/
def extract_humidity_data_st (d0 : Json) : Except String String × Json :=
  bindSt (liftSt (pyContains d0 "humidity") d0) fun c d =>
  if !c then
    (.ok "Humidty data not available", d)
  else
    bindSt (liftSt (pyGet d "humidity" (Json.obj [])) d) fun h d =>
    bindSt (liftSt (pyGet h "data" Json.null) d) fun hd d =>
    if !truthy hd then
      (.ok "Humidty data not available", d)
    else
      bindSt (liftSt (pySubscript d "humidity") d) fun hum d =>
      bindSt (liftSt (pySubscript hum "data") d) fun hdata d =>
      bindSt (liftSt (pyIndex hdata 0) d) fun humidity_info d =>
      bindSt (liftSt (pySubscript d "humidity") d) fun hum2 d =>
      bindSt (liftSt (pySubscript hum2 "recordTime") d) fun recordTime d =>
      bindSt (liftSt (pySubscript humidity_info "value") d) fun v d =>
      bindSt (liftSt (pySubscript humidity_info "unit") d) fun u d =>
      bindSt (liftSt (pySubscript humidity_info "place") d) fun p d =>
      (.ok ("Humidity: " ++ toPyStr v ++ " " ++ toPyStr u ++ " at " ++ toPyStr p ++ " Recorded at: " ++ toPyStr recordTime), d)

/-- `extract_uv_index` (src/weather.py lines 104-112).  When `uvindex` is
absent, `data.get` yields the default *string* "No uv index", whose `len` is
11, so control reaches `uvinfo['data']` — a string subscript, `TypeError`. -/
def extract_uv_index_st (d0 : Json) : Except String String × Json :=
  bindSt (liftSt (pyGet d0 "uvindex" (Json.str "No uv index")) d0) fun uvinfo d =>
  bindSt (liftSt (pyLen uvinfo) d) fun l d =>
  if l < 1 then
    (.ok "No UV index", d)
  else
    bindSt (liftSt (pySubscript uvinfo "data") d) fun uvdataList d =>
    bindSt (liftSt (pyIndex uvdataList 0) d) fun uv_data d =>
    bindSt (liftSt (pySubscript uvinfo "recordDesc") d) fun record_desc d =>
    bindSt (liftSt (pySubscript uv_data "value") d) fun v d =>
    bindSt (liftSt (pySubscript uv_data "desc") d) fun de d =>
    bindSt (liftSt (pySubscript uv_data "place") d) fun p d =>
    (.ok ("UV Index: " ++ toPyStr v ++ " (" ++ toPyStr de ++ ") at " ++ toPyStr p ++ " \n        Record description: " ++ toPyStr record_desc), d)

/-- `current_weather_process` (src/weather.py lines 115-118): the four
extractions in list order, joined by newline. -/
def current_weather_process_st (d0 : Json) : Except String String × Json :=
  bindSt (extract_temperature_data_st d0) fun t d =>
  bindSt (extract_rainfall_data_st d) fun r d =>
  bindSt (extract_humidity_data_st d) fun h d =>
  bindSt (extract_uv_index_st d) fun u d =>
  (.ok (String.intercalate "\n" [t, r, h, u]), d)

/-- One day of the `fnd` branch of `formatting_weather` (src/weather.py lines
137-138).  The f-string there is continued with a backslash at the end of the
physical line, so the 12 spaces indenting the continuation line are part of
the literal: the rendered line is `...min-max            unit`. -/
def fnd_day_line_st (day : Json) (d : Json) : Except String String × Json :=
  bindSt (liftSt (pySubscript day "week") d) fun w d =>
  bindSt (liftSt (pySubscript day "forecastDate") d) fun fdt d =>
  bindSt (liftSt (pySubscript day "forecastWeather") d) fun fw d =>
  bindSt (liftSt (pySubscript day "forecastMintemp") d) fun mnt d =>
  bindSt (liftSt (pySubscript mnt "value") d) fun mnv d =>
  bindSt (liftSt (pySubscript day "forecastMaxtemp") d) fun mxt d =>
  bindSt (liftSt (pySubscript mxt "value") d) fun mxv d =>
  bindSt (liftSt (pySubscript day "forecastMaxtemp") d) fun mxt2 d =>
  bindSt (liftSt (pySubscript mxt2 "unit") d) fun mxu d =>
  (.ok (toPyStr w ++ " (" ++ toPyStr fdt ++ "): " ++ toPyStr fw ++ ", " ++
        toPyStr mnv ++ "-" ++ toPyStr mxv ++ "            " ++ toPyStr mxu), d)

/-- One tip of the `swt` branch of `formatting_weather` (src/weather.py
line 151). -/
def swt_tip_line_st (tips : Json) (d : Json) : Except String String × Json :=
  bindSt (liftSt (pyGet tips "updateTime" (Json.str "time unknown")) d) fun ut d =>
  bindSt (liftSt (pyGet tips "desc" (Json.str "no description")) d) fun de d =>
  (.ok (toPyStr ut ++ ": " ++ toPyStr de), d)

/-- `formatting_weather` (src/weather.py lines 121-154), threaded through the
document state.  The `flw` branch is the triple-quoted template of lines
125-133, kept byte-for-byte (leading newline, 8-space indents, trailing
8-space line, including the source's misspelled default "Unkown").  A tag
matching no branch falls off the end of the Python function and returns
`None`, modelled as `.ok none`. -/
def formatting_weather_st (d0 : Json) (dataType : String) : Except String (Option String) × Json :=
  if dataType == "flw" then
    bindSt (liftSt (pyGet d0 "generalSituation" (Json.str "Unknown")) d0) fun gs d =>
    bindSt (liftSt (pyGet d "tcInfo" (Json.str "Unkown")) d) fun tc d =>
    bindSt (liftSt (pyGet d "fireDangerWarning" (Json.str "No fire Danger")) d) fun fdw d =>
    bindSt (liftSt (pyGet d "forecastPeriod" (Json.str "Forecast Period not provided")) d) fun fp d =>
    bindSt (liftSt (pyGet d "forecastDesc" (Json.str "No forecast description available")) d) fun fde d =>
    bindSt (liftSt (pyGet d "outlook" (Json.str "No outlook available")) d) fun ol d =>
    bindSt (liftSt (pyGet d "updateTime" (Json.str "No update time available")) d) fun ut d =>
    (.ok (some ("\n        General Situation: " ++ toPyStr gs ++
                "\n        tcInfo: " ++ toPyStr tc ++
                "\n        fireDangerWarning: " ++ toPyStr fdw ++
                "\n        forecastPeriod: " ++ toPyStr fp ++
                "\n        forecastDesc: " ++ toPyStr fde ++
                "\n        outlook: " ++ toPyStr ol ++
                "\n        updateTime: " ++ toPyStr ut ++
                "\n        ")), d)
  else if dataType == "fnd" then
    bindSt (liftSt (pySubscript d0 "weatherForecast") d0) fun wf d =>
    bindSt (liftSt (pyIter wf) d) fun days d =>
    bindSt (mapMESt fnd_day_line_st days d) fun lines d =>
    (.ok (some (String.intercalate "\n" lines)), d)
  else if dataType == "rhrread" then
    bindSt (current_weather_process_st d0) fun s d => (.ok (some s), d)
  else if dataType == "warnsum" then
    bindSt (format_warnings_summary_st d0) fun s d => (.ok (some s), d)
  else if dataType == "warningInfo" then
    bindSt (format_warnings_st d0) fun s d => (.ok (some s), d)
  else if dataType == "swt" then
    bindSt (liftSt (pySubscript d0 "swt") d0) fun l d =>
    bindSt (liftSt (pyIter l) d) fun tips d =>
    bindSt (mapMESt swt_tip_line_st tips d) fun lines d =>
    (.ok (some (String.intercalate "\n" lines)), d)
  else
    (.ok none, d0)

/-
Pure projections of the threaded definitions, under the source's names: the
value each Python function returns (or the exception it raises).
-/

/-- Result of `format_warnings` (the `warningInfo` renderer). -/
def format_warnings (data : Json) : Except String String :=
  (format_warnings_st data).1

/-- Result of `format_warnings_summary` (the `warnsum` renderer). -/
def format_warnings_summary (warnings_data : Json) : Except String String :=
  (format_warnings_summary_st warnings_data).1

/-- Result of `extract_temperature_data`. -/
def extract_temperature_data (data : Json) : Except String String :=
  (extract_temperature_data_st data).1

/-- Result of `extract_rainfall_data`. -/
def extract_rainfall_data (data : Json) : Except String String :=
  (extract_rainfall_data_st data).1

/-- Result of `extract_humidity_data`. -/
def extract_humidity_data (data : Json) : Except String String :=
  (extract_humidity_data_st data).1

/-- Result of `extract_uv_index`. -/
def extract_uv_index (data : Json) : Except String String :=
  (extract_uv_index_st data).1

/-- Result of `current_weather_process`. -/
def current_weather_process (data : Json) : Except String String :=
  (current_weather_process_st data).1

/-- Result of `formatting_weather`. -/
def formatting_weather (weather_data : Json) (dataType : String) : Except String (Option String) :=
  (formatting_weather_st weather_data dataType).1

/-
The Fetcher and the entry tool.
-/

/-- What the single `client.get` round trip of `make_hko_weather_request` can
come to: a 2xx response whose body parses as JSON, an `httpx.HTTPStatusError`
raised by `raise_for_status` on a non-2xx status, an `httpx.RequestError`
(DNS, connection, timeout), or any other exception during the call (including
a 2xx body that fails to parse as JSON). -/
inductive HttpOutcome where
  | success (body : Json)
  | statusError (code : Nat) (msg : String)
  | requestError (msg : String)
  | otherError (msg : String)

/-- `make_hko_weather_request` (src/weather.py lines 14-33): every `except`
arm logs and returns `None`; the happy path returns the parsed JSON.  The
function is total — no outcome escapes as an exception to the caller. -/
def make_hko_weather_request : HttpOutcome → Option Json
  | .success body => some body
  | .statusError _ _ => none
  | .requestError _ => none
  | .otherError _ => none

/-- The valid report tags, in source order (src/weather.py line 205). -/
def dataType_set : List String := ["flw", "fnd", "rhrread", "warnsum", "warningInfo", "swt"]

/-- The valid language codes, in source order (src/weather.py line 206). -/
def lang_set : List String := ["en", "tc", "sc"]

/-- The fixed upstream endpoint (src/weather.py line 11). -/
def HKO_API_BASE : String := "https://data.weather.gov.hk/weatherAPI/opendata/weather.php"

/-- Python `repr` of a set of strings, in insertion order (CPython's actual
iteration order of a str set is hash-dependent; the elements named are what
matters to the claims). -/
def pySetRepr (l : List String) : String :=
  "\x7b" ++ String.intercalate ", " (l.map (fun s => "\x27" ++ s ++ "\x27")) ++ "\x7d"

/-- The fixed error text of `get_weather` for an invalid tag or language
(src/weather.py line 209), naming both valid sets. -/
def invalid_input_message : String :=
  "Invalid dataType or lang. Use dataType in " ++ pySetRepr dataType_set ++ " and " ++ pySetRepr lang_set

/-- `get_weather` (src/weather.py lines 160-218), parameterised by the
network (`net` maps a URL to the outcome of requesting it).  The second
component is the trace of URLs handed to the Fetcher — empty exactly when no
network call is made.  An exception escaping `formatting_weather` would
propagate out of the tool, hence the `Except` result. -/
def get_weather (net : String → HttpOutcome) (dataType lang : String) : Except String (Option String) × List String :=
  if dataType ∉ dataType_set ∨ lang ∉ lang_set then
    (.ok (some invalid_input_message), [])
  else
    let url := HKO_API_BASE ++ "?dataType=" ++ dataType ++ "&lang=" ++ lang
    match make_hko_weather_request (net url) with
    | none => (.ok (some "Data is None"), [url])
    | some data => (formatting_weather data dataType, [url])

/-
Spec-side definitions, for the refinement-style statements: a well-formed
forecast day / temperature reading / warning-summary entry as the claims
describe one, its JSON encoding, and the output line the specification
predicts for it.  The line templates below follow the specification's words,
amended only where the counterexamples force it.
-/

/-- A well-formed day record of an `fnd` document, as the claims describe it:
`week`, `forecastDate`, `forecastWeather`, `forecastMintemp.value`,
`forecastMaxtemp.value` and `forecastMaxtemp.unit`. -/
structure FndDay where
  week : String
  forecastDate : String
  forecastWeather : String
  minValue : Int
  maxValue : Int
  maxUnit : String

/-- The JSON encoding of a well-formed forecast day. -/
def FndDay.toJson (d : FndDay) : Json :=
  .obj [("week", .str d.week),
        ("forecastDate", .str d.forecastDate),
        ("forecastWeather", .str d.forecastWeather),
        ("forecastMintemp", .obj [("value", .num d.minValue)]),
        ("forecastMaxtemp", .obj [("value", .num d.maxValue), ("unit", .str d.maxUnit)])]

/-- The per-day line of the `fnd` renderer as the specification words it,
amended by the counterexample: the source f-string is continued with a
backslash, so 12 spaces separate the maximum temperature from its unit
(`... 15-22            C`, not `... 15-22C`). -/
def fnd_day_line_amended (d : FndDay) : String :=
  d.week ++ " (" ++ d.forecastDate ++ "): " ++ d.forecastWeather ++ ", " ++
  toString d.minValue ++ "-" ++ toString d.maxValue ++ "            " ++ d.maxUnit

/-- A well-formed reading of an `rhrread` temperature record. -/
structure TempReading where
  place : String
  value : Int
  unit : String

/-- The JSON encoding of a temperature reading. -/
def TempReading.toJson (r : TempReading) : Json :=
  .obj [("place", .str r.place), ("value", .num r.value), ("unit", .str r.unit)]

/-- One `place: value°unit` segment of the temperature extraction. -/
def temperature_segment (r : TempReading) : String :=
  r.place ++ ": " ++ toString r.value ++ "°" ++ r.unit

/-- A `warnsum` info object as the claims describe one: each of `name`,
`actionCode`, `issueTime` may be absent. -/
structure WarnEntry where
  name : Option String
  actionCode : Option String
  issueTime : Option String

/-- The JSON encoding of a warning-summary info object: exactly the fields
that are present. -/
def WarnEntry.toJson (w : WarnEntry) : Json :=
  .obj ((match w.name with | some s => [("name", Json.str s)] | none => []) ++
        (match w.actionCode with | some s => [("actionCode", Json.str s)] | none => []) ++
        (match w.issueTime with | some s => [("issueTime", Json.str s)] | none => []))

/-- The per-entry line of the `warnsum` renderer as the specification words
it: `\x7bname\x7d (\x7bcode\x7d) - Action: \x7baction\x7d, Issued at: \x7bissueTime\x7d`, with
"Unknown" substituted for any missing field. -/
def warnsum_line (code : String) (w : WarnEntry) : String :=
  w.name.getD "Unknown" ++ " (" ++ code ++ ") - Action: " ++
  w.actionCode.getD "Unknown" ++ ", Issued at: " ++ w.issueTime.getD "Unknown"

/-
Concrete documents named by the claims.
-/

/-- The `warningInfo` document of claim C3. -/
def wrainDoc : Json :=
  .obj [("details", .arr [.obj [("warningStatementCode", .str "WRAIN"),
                                ("updateTime", .str "t1"),
                                ("contents", .arr [.str "Red rain warning in force."])]])]

/-- The single-day `fnd` document of claim C4. -/
def fndDocC4 : Json :=
  .obj [("weatherForecast", .arr [.obj [("week", .str "Monday"),
                                        ("forecastDate", .str "20240101"),
                                        ("forecastWeather", .str "Sunny"),
                                        ("forecastMintemp", .obj [("value", .num 15)]),
                                        ("forecastMaxtemp", .obj [("value", .num 22), ("unit", .str "C")])]])]

/-- An `rhrread` document whose `uvindex` record holds one reading. -/
def uvPresentDoc : Json :=
  .obj [("uvindex", .obj [("data", .arr [.obj [("value", .num 5),
                                               ("desc", .str "moderate"),
                                               ("place", .str "Kings Park")]]),
                          ("recordDesc", .str "daily maximum")])]

/-- An `rhrread` document with two temperature readings. -/
def tempDoc2 : Json :=
  .obj [("temperature", .obj [("data", .arr [.obj [("place", .str "HKO"), ("value", .num 20), ("unit", .str "C")],
                                             .obj [("place", .str "KP"), ("value", .num 21), ("unit", .str "C")]]),
                              ("recordTime", .str "t")])]

/-- The one-entry `warnsum` mapping of claim C7. -/
def warnsumTC1Doc : Json :=
  .obj [("TC1", .obj [("name", .str "Tropical Cyclone Warning"),
                      ("actionCode", .str "ISSUE"),
                      ("issueTime", .str "2024-01-01T00:00")])]

/-
Frame lemmas: every renderer leaves the document exactly as it received it.
The atomic steps are reads lifted with `liftSt`; these lemmas propagate that
through `bindSt`, the loops, and each function body.
-/

/-- `bindSt` preserves the state when its two parts do. -/
theorem bindSt_snd {α β : Type} (r : Except String α × Json) (f : α → Json → Except String β × Json) (d : Json) (h1 : r.2 = d) (h2 : ∀ a d', (f a d').2 = d') : (bindSt r f).2 = d := by
  obtain ⟨e, d2⟩ := r
  cases e with
  | error err => simpa [bindSt] using h1
  | ok a => simp only [bindSt]; rw [h2 a d2]; simpa using h1

/-- A loop preserves the state when its body does. -/
theorem mapMESt_snd {α β : Type} (f : α → Json → Except String β × Json) (hf : ∀ a d, (f a d).2 = d) : ∀ (l : List α) (d : Json), (mapMESt f l d).2 = d := by
  intro l
  induction l with
  | nil => intro d; rfl
  | cons a as ih =>
    intro d
    unfold mapMESt
    refine bindSt_snd _ _ _ (hf a d) (fun b d' => ?_)
    exact bindSt_snd _ _ _ (ih d') (fun bs d2 => rfl)

/-- The `format_warnings` loop body does not write to the document. -/
theorem format_warnings_detail_st_snd (w d : Json) : (format_warnings_detail_st w d).2 = d := by
  unfold format_warnings_detail_st
  repeat first
    | rfl
    | (refine bindSt_snd _ _ _ rfl (fun a d => ?_))
    | (refine bindSt_snd _ _ _ ?_ (fun a d => ?_))
    | split

/-- `format_warnings` does not write to the document. -/
theorem format_warnings_st_snd (d0 : Json) : (format_warnings_st d0).2 = d0 := by
  unfold format_warnings_st
  refine bindSt_snd _ _ _ rfl (fun details d => ?_)
  split
  · refine bindSt_snd _ _ _ rfl (fun dl d => ?_)
    refine bindSt_snd _ _ _ rfl (fun items d => ?_)
    exact bindSt_snd _ _ _ (mapMESt_snd _ format_warnings_detail_st_snd _ _) (fun ws d => rfl)
  · rfl

/-- The `format_warnings_summary` loop body does not write to the document. -/
theorem format_warnings_summary_item_st_snd (kv : String × Json) (d : Json) : (format_warnings_summary_item_st kv d).2 = d := by
  unfold format_warnings_summary_item_st
  repeat first
    | rfl
    | (refine bindSt_snd _ _ _ rfl (fun a d => ?_))

/-- `format_warnings_summary` does not write to the document. -/
theorem format_warnings_summary_st_snd (d0 : Json) : (format_warnings_summary_st d0).2 = d0 := by
  unfold format_warnings_summary_st
  refine bindSt_snd _ _ _ rfl (fun items d => ?_)
  split
  · rfl
  · exact bindSt_snd _ _ _ (mapMESt_snd _ format_warnings_summary_item_st_snd _ _) (fun ls d => rfl)

/-- The temperature loop body does not write to the document. -/
theorem temperature_reading_st_snd (t d : Json) : (temperature_reading_st t d).2 = d := by
  unfold temperature_reading_st
  repeat first
    | rfl
    | (refine bindSt_snd _ _ _ rfl (fun a d => ?_))

/-- `extract_temperature_data` does not write to the document. -/
theorem extract_temperature_data_st_snd (d0 : Json) : (extract_temperature_data_st d0).2 = d0 := by
  unfold extract_temperature_data_st
  refine bindSt_snd _ _ _ rfl (fun c d => ?_)
  split
  · refine bindSt_snd _ _ _ rfl (fun a d => ?_)
    refine bindSt_snd _ _ _ rfl (fun a d => ?_)
    refine bindSt_snd _ _ _ rfl (fun a d => ?_)
    refine bindSt_snd _ _ _ rfl (fun a d => ?_)
    refine bindSt_snd _ _ _ rfl (fun a d => ?_)
    exact bindSt_snd _ _ _ (mapMESt_snd _ temperature_reading_st_snd _ _) (fun ls d => rfl)
  · rfl

/-- The rainfall loop body does not write to the document. -/
theorem rainfall_reading_st_snd (r d : Json) : (rainfall_reading_st r d).2 = d := by
  unfold rainfall_reading_st
  repeat first
    | rfl
    | (refine bindSt_snd _ _ _ rfl (fun a d => ?_))

/-- `extract_rainfall_data` does not write to the document. -/
theorem extract_rainfall_data_st_snd (d0 : Json) : (extract_rainfall_data_st d0).2 = d0 := by
  unfold extract_rainfall_data_st
  refine bindSt_snd _ _ _ rfl (fun c d => ?_)
  split
  · refine bindSt_snd _ _ _ rfl (fun a d => ?_)
    refine bindSt_snd _ _ _ rfl (fun a d => ?_)
    refine bindSt_snd _ _ _ rfl (fun a d => ?_)
    exact bindSt_snd _ _ _ (mapMESt_snd _ rainfall_reading_st_snd _ _) (fun ls d => rfl)
  · rfl

/-- `extract_humidity_data` does not write to the document. -/
theorem extract_humidity_data_st_snd (d0 : Json) : (extract_humidity_data_st d0).2 = d0 := by
  unfold extract_humidity_data_st
  repeat first
    | rfl
    | (refine bindSt_snd _ _ _ rfl (fun a d => ?_))
    | split

/-- `extract_uv_index` does not write to the document. -/
theorem extract_uv_index_st_snd (d0 : Json) : (extract_uv_index_st d0).2 = d0 := by
  unfold extract_uv_index_st
  repeat first
    | rfl
    | (refine bindSt_snd _ _ _ rfl (fun a d => ?_))
    | split

/-- `current_weather_process` does not write to the document. -/
theorem current_weather_process_st_snd (d0 : Json) : (current_weather_process_st d0).2 = d0 := by
  unfold current_weather_process_st
  refine bindSt_snd _ _ _ (extract_temperature_data_st_snd d0) (fun t d => ?_)
  refine bindSt_snd _ _ _ (extract_rainfall_data_st_snd d) (fun r d => ?_)
  refine bindSt_snd _ _ _ (extract_humidity_data_st_snd d) (fun h d => ?_)
  exact bindSt_snd _ _ _ (extract_uv_index_st_snd d) (fun u d => rfl)

/-- The `fnd` loop body does not write to the document. -/
theorem fnd_day_line_st_snd (day d : Json) : (fnd_day_line_st day d).2 = d := by
  unfold fnd_day_line_st
  repeat first
    | rfl
    | (refine bindSt_snd _ _ _ rfl (fun a d => ?_))

/-- The `swt` loop body does not write to the document. -/
theorem swt_tip_line_st_snd (tips d : Json) : (swt_tip_line_st tips d).2 = d := by
  unfold swt_tip_line_st
  repeat first
    | rfl
    | (refine bindSt_snd _ _ _ rfl (fun a d => ?_))

/-- `formatting_weather` does not write to the document, whichever branch the
report tag selects. -/
theorem formatting_weather_st_snd (d0 : Json) (dataType : String) : (formatting_weather_st d0 dataType).2 = d0 := by
  unfold formatting_weather_st
  split
  · repeat first
      | rfl
      | (refine bindSt_snd _ _ _ rfl (fun a d => ?_))
  · split
    · refine bindSt_snd _ _ _ rfl (fun wf d => ?_)
      refine bindSt_snd _ _ _ rfl (fun days d => ?_)
      exact bindSt_snd _ _ _ (mapMESt_snd _ fnd_day_line_st_snd _ _) (fun ls d => rfl)
    · split
      · exact bindSt_snd _ _ _ (current_weather_process_st_snd d0) (fun s d => rfl)
      · split
        · exact bindSt_snd _ _ _ (format_warnings_summary_st_snd d0) (fun s d => rfl)
        · split
          · exact bindSt_snd _ _ _ (format_warnings_st_snd d0) (fun s d => rfl)
          · split
            · refine bindSt_snd _ _ _ rfl (fun l d => ?_)
              refine bindSt_snd _ _ _ rfl (fun tips d => ?_)
              exact bindSt_snd _ _ _ (mapMESt_snd _ swt_tip_line_st_snd _ _) (fun ls d => rfl)
            · rfl

/-
Evaluation and error-propagation lemmas.
-/

/-- An exception in the first step aborts the whole sequence. -/
theorem bindSt_isErr {α β : Type} (r : Except String α × Json) (f : α → Json → Except String β × Json) (h : isErr r.1 = true) : isErr (bindSt r f).1 = true := by
  obtain ⟨e, d⟩ := r
  cases e with
  | error m => rfl
  | ok a => simp [isErr] at h

/-- If some element of the list makes the loop body raise (whatever the
document state), and the body never writes to the document, the whole loop
raises: the failing element is not silently dropped. -/
theorem mapMESt_isErr {α β : Type} (f : α → Json → Except String β × Json)
    (hf : ∀ a d, (f a d).2 = d) (w : α) (hw : ∀ d, isErr (f w d).1 = true) :
    ∀ (l : List α), w ∈ l → ∀ d, isErr (mapMESt f l d).1 = true := by
  intro l
  induction l with
  | nil => intro h d; cases h
  | cons a as ih =>
    intro hmem d
    unfold mapMESt
    rcases List.mem_cons.mp hmem with h | h
    · subst h
      exact bindSt_isErr _ _ (hw d)
    · rcases hE : f a d with ⟨e, d2⟩
      cases e with
      | error m => simp [bindSt, hE, isErr]
      | ok b =>
        have hd2 : d2 = d := by have h2 := hf a d; rw [hE] at h2; exact h2
        rw [hd2]
        simp only [bindSt]
        exact bindSt_isErr _ _ (ih h d)

/-- A key bound by none of an association list's entries looks up to `none`. -/
theorem lookup_eq_none_of_not_mem_keys {β : Type} (l : List (String × β)) (s : String) (h : s ∉ l.map Prod.fst) : l.lookup s = none := by
  induction l with
  | nil => rfl
  | cons p rest ih =>
    have h1 : s ≠ p.1 := by intro he; exact h (by simp [he])
    have h2 : s ∉ rest.map Prod.fst := by intro hm; exact h (by simp [hm])
    simp [List.lookup, beq_eq_false_iff_ne.mpr h1, ih h2]

/-- Subscripting the 12-entry warning-code table with anything that is not
one of its 12 string keys raises `KeyError`. -/
theorem warningCodeSubscript_isErr (c : Json) (h : ∀ s, c = Json.str s → s ∉ warning_code_dict.map Prod.fst) : isErr (warningCodeSubscript c) = true := by
  cases c with
  | str s =>
    have hl := lookup_eq_none_of_not_mem_keys warning_code_dict s (h s rfl)
    unfold warningCodeSubscript
    simp [hl, isErr]
  | null => rfl
  | bool b => rfl
  | num n => rfl
  | arr l => rfl
  | obj l => rfl

/-- A detail record whose `warningStatementCode` is present but outside the
table makes the `format_warnings` loop body raise, whatever the document. -/
theorem format_warnings_detail_st_isErr (wf : List (String × Json)) (c : Json) (d : Json)
    (hk : getKey wf "warningStatementCode" = some c)
    (hc : isErr (warningCodeSubscript c) = true) :
    isErr (format_warnings_detail_st (Json.obj wf) d).1 = true := by
  unfold format_warnings_detail_st
  simp only [pySubscript, hk, liftSt, bindSt]
  cases hE : warningCodeSubscript c with
  | error msg => simp [bindSt, liftSt, hE, isErr]
  | ok v => rw [hE] at hc; simp [isErr] at hc

/-- The `fnd` loop evaluated on well-formed day records. -/
theorem mapMESt_fnd_eval (ds : List FndDay) (d : Json) :
    mapMESt fnd_day_line_st (ds.map FndDay.toJson) d = (.ok (ds.map fnd_day_line_amended), d) := by
  induction ds with
  | nil => rfl
  | cons a as ih =>
    simp only [List.map, mapMESt,
      show fnd_day_line_st (FndDay.toJson a) d = (.ok (fnd_day_line_amended a), d) from rfl,
      bindSt, ih]

/-- The temperature loop evaluated on well-formed readings. -/
theorem mapMESt_temperature_eval (rs : List TempReading) (d : Json) :
    mapMESt temperature_reading_st (rs.map TempReading.toJson) d = (.ok (rs.map temperature_segment), d) := by
  induction rs with
  | nil => rfl
  | cons a as ih =>
    simp only [List.map, mapMESt,
      show temperature_reading_st (TempReading.toJson a) d = (.ok (temperature_segment a), d) from rfl,
      bindSt, ih]

/-- The `warnsum` loop body evaluated on a well-formed entry: absent fields
fall back to "Unknown" through `dict.get`. -/
theorem format_warnings_summary_item_st_eval (code : String) (w : WarnEntry) (d : Json) :
    format_warnings_summary_item_st (code, WarnEntry.toJson w) d = (.ok (warnsum_line code w), d) := by
  obtain ⟨n, a, i⟩ := w
  cases n <;> cases a <;> cases i <;> rfl

/-- The `warnsum` loop evaluated on well-formed entries. -/
theorem mapMESt_warnsum_eval (entries : List (String × WarnEntry)) (d : Json) :
    mapMESt format_warnings_summary_item_st (entries.map (fun p => (p.1, WarnEntry.toJson p.2))) d =
      (.ok (entries.map (fun p => warnsum_line p.1 p.2)), d) := by
  induction entries with
  | nil => rfl
  | cons a as ih =>
    simp only [List.map, mapMESt, format_warnings_summary_item_st_eval a.1 a.2 d, bindSt, ih]

/-
The claims.
-/

/-- C1: for every pair of string inputs where the report tag is not one of
the six recognized tags or the language is not one of the three codes,
`get_weather` returns the fixed descriptive error string naming the valid
sets, and performs no network call — the result pair is independent of the
network and its URL trace is empty, so the Fetcher is never invoked. -/
theorem get_weather_invalid_input (net : String → HttpOutcome) (dataType lang : String)
    (h : dataType ∉ dataType_set ∨ lang ∉ lang_set) :
    get_weather net dataType lang = (.ok (some invalid_input_message), []) := by
  unfold get_weather
  rw [if_pos h]

/-- C1 witness: the concrete invalid tag "bogus" with the valid language
"en" returns the error text with an empty URL trace. -/
theorem get_weather_invalid_input_witness :
    ("bogus" ∉ dataType_set ∨ "en" ∉ lang_set) ∧
    get_weather (fun _ => .otherError "network unreachable") "bogus" "en" = (.ok (some invalid_input_message), []) :=
  ⟨Or.inl (by decide), get_weather_invalid_input _ _ _ (Or.inl (by decide))⟩

/-- C2: `make_hko_weather_request` is a total function of the outcome of its
single HTTP round trip — it never raises to its caller.  On a non-2xx
response (`raise_for_status`), on a transport-level `RequestError`, and on
any other exception during the call it returns `None`; on a 2xx response
whose body parses it returns the parsed JSON document. -/
theorem make_hko_weather_request_never_raises :
    (∀ code msg, make_hko_weather_request (.statusError code msg) = none) ∧
    (∀ msg, make_hko_weather_request (.requestError msg) = none) ∧
    (∀ msg, make_hko_weather_request (.otherError msg) = none) ∧
    (∀ body, make_hko_weather_request (.success body) = some body) :=
  ⟨fun _ _ => rfl, fun _ => rfl, fun _ => rfl, fun _ => rfl⟩

/-- C4 counterexample: on the claim's single-day document the `fnd` renderer
does NOT return "Monday (20240101): Sunny, 15-22C" — the source f-string is
continued with a backslash and the continuation line's 12 spaces of
indentation are part of the literal, so the unit is preceded by 12 spaces. -/
theorem formatting_weather_fnd_claim_counterexample :
    formatting_weather fndDocC4 "fnd" = .ok (some "Monday (20240101): Sunny, 15-22            C") ∧
    formatting_weather fndDocC4 "fnd" ≠ .ok (some "Monday (20240101): Sunny, 15-22C") := by
  refine ⟨rfl, fun h => ?_⟩
  rw [show formatting_weather fndDocC4 "fnd" = .ok (some "Monday (20240101): Sunny, 15-22            C") from rfl] at h
  injection h with h1
  injection h1 with h2
  exact absurd h2 (by decide)

/-- C4 amended: on the claim's single-day document the `fnd` renderer
returns "Monday (20240101): Sunny, 15-22            C" (12 spaces before the
unit, inherited from the source's backslash line continuation); and for
every document whose `weatherForecast` list holds well-formed day records it
produces one such line per day, newline-joined, in the document's original
day ordering. -/
theorem formatting_weather_fnd_amended :
    (formatting_weather fndDocC4 "fnd" = .ok (some "Monday (20240101): Sunny, 15-22            C")) ∧
    ∀ (ds : List FndDay),
      formatting_weather (Json.obj [("weatherForecast", Json.arr (ds.map FndDay.toJson))]) "fnd" =
        .ok (some (String.intercalate "\n" (ds.map fnd_day_line_amended))) := by
  refine ⟨rfl, fun ds => ?_⟩
  show (bindSt (mapMESt fnd_day_line_st (ds.map FndDay.toJson)
          (Json.obj [("weatherForecast", Json.arr (ds.map FndDay.toJson))]))
        fun lines d => (.ok (some (String.intercalate "\n" lines)), d)).1 =
      .ok (some (String.intercalate "\n" (ds.map fnd_day_line_amended)))
  rw [mapMESt_fnd_eval]
  rfl

/-- C5: the claim matches the author's visible intent (the `data.get`
default exists to handle a missing `uvindex`), but the code is a slip: the
default is the *string* "No uv index", whose `len` is 11, so the `len < 1`
guard does not fire and `uvinfo['data']` subscripts a string — `TypeError`,
not the string "No UV index".  The present-with-a-reading half behaves as
claimed. -/
theorem extract_uv_index_absent_key_raises :
    extract_uv_index (Json.obj []) = .error "TypeError: string indices must be integers" ∧
    extract_uv_index uvPresentDoc = .ok "UV Index: 5 (moderate) at Kings Park \n        Record description: daily maximum" :=
  ⟨rfl, rfl⟩

/-- C6 counterexample: with two temperature readings the segments are NOT
concatenated without a separator — the source joins `location_temp` with
newline; only the header and the first segment touch without a separator. -/
theorem extract_temperature_separator_counterexample :
    extract_temperature_data tempDoc2 = .ok "Temperature readings (recorded at t):HKO: 20°C\nKP: 21°C" ∧
    extract_temperature_data tempDoc2 ≠ .ok ("Temperature readings (recorded at t):" ++ "HKO: 20°C" ++ "KP: 21°C") := by
  refine ⟨rfl, fun h => ?_⟩
  rw [show extract_temperature_data tempDoc2 = .ok "Temperature readings (recorded at t):HKO: 20°C\nKP: 21°C" from rfl] at h
  injection h with h1
  exact absurd h1 (by decide)

/-- C6 amended: for every `rhrread` document whose `temperature` record
holds well-formed readings, the extraction emits the header (which the first
segment follows with no separator) and the `place: value°unit` segments
joined by newlines, in order. -/
theorem extract_temperature_data_amended (t : String) (rs : List TempReading) :
    extract_temperature_data (Json.obj [("temperature", Json.obj [("data", Json.arr (rs.map TempReading.toJson)), ("recordTime", Json.str t)])]) =
      .ok ("Temperature readings (recorded at " ++ t ++ "):" ++ String.intercalate "\n" (rs.map temperature_segment)) := by
  show (bindSt (mapMESt temperature_reading_st (rs.map TempReading.toJson)
          (Json.obj [("temperature", Json.obj [("data", Json.arr (rs.map TempReading.toJson)), ("recordTime", Json.str t)])]))
        fun ls d => (.ok ("Temperature readings (recorded at " ++ t ++ "):" ++ String.intercalate "\n" ls), d)).1 = _
  rw [mapMESt_temperature_eval]
  rfl

/-- C3: on the claim's document the `warningInfo` renderer returns exactly
"Rainstorm Warning Signal - t1: Red rain warning in force."; and any
document whose `details` list contains a record whose `warningStatementCode`
is outside the 12 known codes makes the call fail with a lookup error
(`KeyError`) instead of silently dropping the entry. -/
theorem format_warnings_wrain_and_unknown_code :
    format_warnings wrainDoc = .ok "Rainstorm Warning Signal - t1: Red rain warning in force." ∧
    ∀ (fs : List (String × Json)) (items : List Json) (wf : List (String × Json)) (c : Json),
      getKey fs "details" = some (Json.arr items) →
      Json.obj wf ∈ items →
      getKey wf "warningStatementCode" = some c →
      (∀ s, c = Json.str s → s ∉ warning_code_dict.map Prod.fst) →
      isErr (format_warnings (Json.obj fs)) = true := by
  refine ⟨rfl, fun fs items wf c hdet hmem hk hcode => ?_⟩
  have hbody : ∀ d, isErr (format_warnings_detail_st (Json.obj wf) d).1 = true :=
    fun d => format_warnings_detail_st_isErr wf c d hk (warningCodeSubscript_isErr c hcode)
  have hloop := mapMESt_isErr format_warnings_detail_st format_warnings_detail_st_snd (Json.obj wf) hbody items hmem
  have hne : items ≠ [] := List.ne_nil_of_mem hmem
  have h1 : pyGet (Json.obj fs) "details" Json.null = .ok (Json.arr items) := by
    simp [pyGet, hdet]
  have h2 : pySubscript (Json.obj fs) "details" = .ok (Json.arr items) := by
    simp [pySubscript, hdet]
  have h3 : truthy (Json.arr items) = true := by
    cases items with
    | nil => exact absurd rfl hne
    | cons x xs => rfl
  unfold format_warnings format_warnings_st
  rw [h1]
  simp only [liftSt, bindSt, h3, if_true, h2, pyIter]
  exact bindSt_isErr _ _ (hloop _)

/-- C3 witness: a one-record document with the unknown code "WXYZ" makes
`format_warnings` raise. -/
theorem format_warnings_unknown_code_witness :
    isErr (format_warnings (Json.obj [("details", Json.arr [Json.obj [("warningStatementCode", Json.str "WXYZ")]])])) = true :=
  format_warnings_wrain_and_unknown_code.2
    [("details", Json.arr [Json.obj [("warningStatementCode", Json.str "WXYZ")]])]
    [Json.obj [("warningStatementCode", Json.str "WXYZ")]]
    [("warningStatementCode", Json.str "WXYZ")]
    (Json.str "WXYZ")
    rfl (List.Mem.head _) rfl
    (fun s hs => by injection hs with h2; subst h2; decide)

/-- C7: the `warnsum` renderer returns "No warning issued." on the empty
mapping, the claim's exact line on the TC1 example, and one line per entry
in the mapping's iteration order on any non-empty mapping of well-formed
entries, substituting "Unknown" for each missing field. -/
theorem format_warnings_summary_spec :
    format_warnings_summary (Json.obj []) = .ok "No warning issued." ∧
    format_warnings_summary warnsumTC1Doc = .ok "Tropical Cyclone Warning (TC1) - Action: ISSUE, Issued at: 2024-01-01T00:00" ∧
    ∀ (entries : List (String × WarnEntry)), entries ≠ [] →
      format_warnings_summary (Json.obj (entries.map (fun p => (p.1, WarnEntry.toJson p.2)))) =
        .ok (String.intercalate "\n" (entries.map (fun p => warnsum_line p.1 p.2))) := by
  refine ⟨rfl, rfl, fun entries hne => ?_⟩
  cases entries with
  | nil => exact absurd rfl hne
  | cons e es =>
    show (bindSt (mapMESt format_warnings_summary_item_st
            ((e :: es).map (fun p => (p.1, WarnEntry.toJson p.2)))
            (Json.obj ((e :: es).map (fun p => (p.1, WarnEntry.toJson p.2)))))
          fun ls d => (.ok (String.intercalate "\n" ls), d)).1 = _
    rw [mapMESt_warnsum_eval]
    rfl

/-- C7 witness: a one-entry mapping whose info object lacks `actionCode`
renders with "Unknown" in the action slot. -/
theorem format_warnings_summary_spec_witness :
    format_warnings_summary (Json.obj ([("TC9", (⟨some "Gale Warning", none, some "t9"⟩ : WarnEntry))].map (fun p => (p.1, WarnEntry.toJson p.2)))) =
      .ok (String.intercalate "\n" ([("TC9", (⟨some "Gale Warning", none, some "t9"⟩ : WarnEntry))].map (fun p => warnsum_line p.1 p.2))) :=
  format_warnings_summary_spec.2.2 _ (List.cons_ne_nil _ _)

/-- C8: the humidity extraction returns the fixed "not available" message on
every document whose `humidity` key is absent and on every one whose
`humidity.data` is missing or falsy (in particular empty, whatever
`recordTime` holds); with a non-empty reading list it uses only the first
reading, whatever follows it. -/
theorem extract_humidity_data_spec :
    (∀ fs : List (String × Json), getKey fs "humidity" = none →
        extract_humidity_data (Json.obj fs) = .ok "Humidty data not available") ∧
    (∀ (fs hf : List (String × Json)),
        getKey fs "humidity" = some (Json.obj hf) →
        truthy ((getKey hf "data").getD Json.null) = false →
        extract_humidity_data (Json.obj fs) = .ok "Humidty data not available") ∧
    (∀ (v : Int) (u p t : String) (rest : List Json),
        extract_humidity_data (Json.obj [("humidity", Json.obj [("data", Json.arr (Json.obj [("value", Json.num v), ("unit", Json.str u), ("place", Json.str p)] :: rest)), ("recordTime", Json.str t)])]) =
          .ok ("Humidity: " ++ toString v ++ " " ++ u ++ " at " ++ p ++ " Recorded at: " ++ t)) := by
  refine ⟨fun fs hmiss => ?_, fun fs hf hget hfalsy => ?_, fun v u p t rest => rfl⟩
  · have hc : pyContains (Json.obj fs) "humidity" = .ok false := by simp [pyContains, hmiss]
    unfold extract_humidity_data extract_humidity_data_st
    rw [hc]
    simp [liftSt, bindSt]
  · have hc : pyContains (Json.obj fs) "humidity" = .ok true := by simp [pyContains, hget]
    have hg1 : pyGet (Json.obj fs) "humidity" (Json.obj []) = .ok (Json.obj hf) := by simp [pyGet, hget]
    have hg2 : pyGet (Json.obj hf) "data" Json.null = .ok ((getKey hf "data").getD Json.null) := by simp [pyGet]
    unfold extract_humidity_data extract_humidity_data_st
    rw [hc]
    simp [liftSt, bindSt, hg1, hg2, hfalsy]

/-- C8 witness: the message for a document with no `humidity` key at all,
and for `humidity: \x7b"data": [], "recordTime": "t"\x7d`. -/
theorem extract_humidity_data_spec_witness :
    extract_humidity_data (Json.obj []) = .ok "Humidty data not available" ∧
    extract_humidity_data (Json.obj [("humidity", Json.obj [("data", Json.arr []), ("recordTime", Json.str "t")])]) = .ok "Humidty data not available" :=
  ⟨extract_humidity_data_spec.1 [] rfl,
   extract_humidity_data_spec.2.1 [("humidity", Json.obj [("data", Json.arr []), ("recordTime", Json.str "t")])] [("data", Json.arr []), ("recordTime", Json.str "t")] rfl rfl⟩

/-- C9: the Formatter is deterministic and idempotent across calls — running
`formatting_weather` a second time, on the document state left behind by the
first call, yields the same output for every document and tag (there is no
hidden mutable state for a call to perturb). -/
theorem formatting_weather_idempotent (d : Json) (t : String) :
    (formatting_weather_st ((formatting_weather_st d t).2) t).1 = (formatting_weather_st d t).1 := by
  rw [formatting_weather_st_snd]

/-- A computation whose final state is `d` is the pair of its result and `d`. -/
theorem eq_pair_of_snd_eq {α : Type} (x : α × Json) (d : Json) (h : x.2 = d) : x = (x.1, d) := by
  rw [← h]

/-- C10: `formatting_weather` and every renderer it dispatches to only read
the document: each threaded computation returns its (pure) result together
with the document exactly as received, on success and on failure alike. -/
theorem formatting_weather_frame (d : Json) (t : String) :
    formatting_weather_st d t = (formatting_weather d t, d) ∧
    format_warnings_st d = (format_warnings d, d) ∧
    format_warnings_summary_st d = (format_warnings_summary d, d) ∧
    current_weather_process_st d = (current_weather_process d, d) ∧
    extract_temperature_data_st d = (extract_temperature_data d, d) ∧
    extract_rainfall_data_st d = (extract_rainfall_data d, d) ∧
    extract_humidity_data_st d = (extract_humidity_data d, d) ∧
    extract_uv_index_st d = (extract_uv_index d, d) :=
  ⟨eq_pair_of_snd_eq _ _ (formatting_weather_st_snd d t),
   eq_pair_of_snd_eq _ _ (format_warnings_st_snd d),
   eq_pair_of_snd_eq _ _ (format_warnings_summary_st_snd d),
   eq_pair_of_snd_eq _ _ (current_weather_process_st_snd d),
   eq_pair_of_snd_eq _ _ (extract_temperature_data_st_snd d),
   eq_pair_of_snd_eq _ _ (extract_rainfall_data_st_snd d),
   eq_pair_of_snd_eq _ _ (extract_humidity_data_st_snd d),
   eq_pair_of_snd_eq _ _ (extract_uv_index_st_snd d)⟩

end HKWeather
